import Mathlib

/-!
Verification development for the AstraDraw API access-control core and
collaboration room-key lifecycle.

The definitions below are a shallow embedding of the TypeScript sources:
the relational store is modelled as lists of rows shaped exactly like the
Prisma query results the services consume, and each service method becomes
a total Lean function over that store.  External library primitives
(Node's AES-256-GCM cipher, SHA-256, and the nanoid generator) are not
repository code; they are modelled by executable abstract stand-ins whose
doc comments say exactly what is being abstracted.
-/

namespace AstraDraw

/-- Workspace role enum from the Prisma schema: ADMIN, MEMBER, VIEWER. -/
inductive WorkspaceRole where
  | ADMIN
  | MEMBER
  | VIEWER
deriving DecidableEq, Repr

/-- Workspace type enum from the Prisma schema: PERSONAL or SHARED. -/
inductive WorkspaceType where
  | PERSONAL
  | SHARED
deriving DecidableEq, Repr

/-- Collection access level enum from the Prisma schema: VIEW or EDIT. -/
inductive CollectionAccessLevel where
  | VIEW
  | EDIT
deriving DecidableEq, Repr

/-- A workspace row (only the fields the access resolver reads). -/
structure Workspace where
  id : String
  type : WorkspaceType
deriving DecidableEq, Repr

/-- A TeamCollection row (a team's grant on a collection), as included
under a collection by the scene query in SceneAccessService.checkAccess. -/
structure TeamCollection where
  teamId : String
  accessLevel : CollectionAccessLevel
deriving DecidableEq, Repr

/-- A collection as returned by the scene query of checkAccess: the row
with its workspace and its teamCollections included. -/
structure Collection where
  id : String
  userId : String
  isPrivate : Bool
  workspace : Workspace
  teamCollections : List TeamCollection
deriving DecidableEq, Repr

/-- A scene row with its (optional) collection included, mirroring
prisma.scene.findUnique with the include used by checkAccess. -/
structure Scene where
  id : String
  userId : String
  collection : Option Collection
  collaborationEnabled : Bool
  roomId : Option String
  roomKeyEncrypted : Option String
deriving DecidableEq, Repr

/-- A workspaceMember row with its teamMemberships included (as the team
ids), mirroring prisma.workspaceMember.findUnique in checkAccess. -/
structure WorkspaceMember where
  workspaceId : String
  userId : String
  role : WorkspaceRole
  teamMemberships : List String
deriving DecidableEq, Repr

/-- The slice of the relational store consumed by the scene access
resolver and the workspace-scenes controller. -/
structure DB where
  scenes : List Scene
  members : List WorkspaceMember
deriving Repr

/-- prisma.scene.findUnique on the id key. -/
def findScene (db : DB) (sceneId : String) : Option Scene :=
  db.scenes.find? (fun s => s.id == sceneId)

/-- prisma.workspaceMember.findUnique on the (workspaceId, userId) key. -/
def findMember (db : DB) (workspaceId userId : String) : Option WorkspaceMember :=
  db.members.find? (fun m => m.workspaceId == workspaceId && m.userId == userId)

/-- Result type of SceneAccessService.checkAccess. -/
structure SceneAccessResult where
  canView : Bool
  canEdit : Bool
  canCollaborate : Bool
deriving DecidableEq, Repr

/-- The all-false access verdict. -/
def allFalse : SceneAccessResult :=
  { canView := false, canEdit := false, canCollaborate := false }

/-- Shallow embedding of SceneAccessService.checkAccess: workspace to
collection to team resolution, branch for branch as in the source. -/
def checkAccess (db : DB) (sceneId userId : String) : SceneAccessResult :=
  match findScene db sceneId with
  | none => allFalse
  | some scene =>
    match scene.collection with
    | none =>
      let isOwner := scene.userId == userId
      { canView := isOwner, canEdit := isOwner, canCollaborate := false }
    | some collection =>
      let workspace := collection.workspace
      match findMember db workspace.id userId with
      | none => allFalse
      | some membership =>
        if workspace.type == WorkspaceType.PERSONAL then
          let isOwner := scene.userId == userId
          { canView := isOwner, canEdit := isOwner, canCollaborate := false }
        else if membership.role == WorkspaceRole.ADMIN then
          { canView := true, canEdit := true,
            canCollaborate := scene.collaborationEnabled }
        else if collection.isPrivate then
          let isOwner := collection.userId == userId
          { canView := isOwner,
            canEdit := isOwner && !(membership.role == WorkspaceRole.VIEWER),
            canCollaborate := isOwner && scene.collaborationEnabled }
        else
          let userTeamIds := membership.teamMemberships
          match collection.teamCollections.find?
              (fun tc => userTeamIds.contains tc.teamId) with
          | none => allFalse
          | some teamAccess =>
            let canEdit :=
              (teamAccess.accessLevel == CollectionAccessLevel.EDIT) &&
                !(membership.role == WorkspaceRole.VIEWER)
            { canView := true, canEdit := canEdit,
              canCollaborate := scene.collaborationEnabled && canEdit }

/-- Typed errors thrown by the services, collapsed to the classes the
claims distinguish. -/
inductive ApiError where
  | notFound
  | forbidden
  | badRequest
  | internal
  | integrityFailure
deriving DecidableEq, Repr

/-- A workspaceMember row as read by WorkspacesService and TeamsService
(with its primary key, without the team include). -/
structure WMember where
  id : String
  workspaceId : String
  userId : String
  role : WorkspaceRole
deriving DecidableEq, Repr

/-- A teamMember row: a team references a workspace membership. -/
structure TeamMemberRow where
  teamId : String
  memberId : String
deriving DecidableEq, Repr

/-- A teamCollection row as read by TeamsService: the grant of a team on
a collection with its access level. -/
structure TeamCollectionRow where
  teamId : String
  collectionId : String
  accessLevel : CollectionAccessLevel
deriving DecidableEq, Repr

/-- The slice of the relational store consumed by WorkspacesService
member management and TeamsService.getAccessibleCollectionIds. -/
structure OrgDB where
  members : List WMember
  teamMembers : List TeamMemberRow
  teamCollections : List TeamCollectionRow
deriving Repr

/-- prisma.workspaceMember.findUnique on the (workspaceId, userId) key. -/
def findMemberByKey (db : OrgDB) (workspaceId userId : String) : Option WMember :=
  db.members.find? (fun m => m.workspaceId == workspaceId && m.userId == userId)

/-- prisma.workspaceMember.findUnique on the id key. -/
def findMemberById (db : OrgDB) (memberId : String) : Option WMember :=
  db.members.find? (fun m => m.id == memberId)

/-- The roleHierarchy table of WorkspacesService.requireRole. -/
def roleHierarchy : WorkspaceRole → Nat
  | WorkspaceRole.ADMIN => 3
  | WorkspaceRole.MEMBER => 2
  | WorkspaceRole.VIEWER => 1

/-- WorkspacesService.requireRole: requireMembership then compare the
role weights; a missing membership or a too-low role is Forbidden. -/
def requireRole (db : OrgDB) (workspaceId userId : String)
    (requiredRole : WorkspaceRole) : Except ApiError WMember :=
  match findMemberByKey db workspaceId userId with
  | none => Except.error ApiError.forbidden
  | some membership =>
    if roleHierarchy membership.role < roleHierarchy requiredRole then
      Except.error ApiError.forbidden
    else
      Except.ok membership

/-- prisma.workspaceMember.count on (workspaceId, role ADMIN). -/
def adminCount (db : OrgDB) (workspaceId : String) : Nat :=
  (db.members.filter
    (fun m => m.workspaceId == workspaceId && m.role == WorkspaceRole.ADMIN)).length

/-- Shallow embedding of WorkspacesService.updateMemberRole, including
the last-admin guard.  The error result carries no store, so a refused
call leaves the store unchanged by construction. -/
def updateMemberRole (db : OrgDB) (workspaceId adminUserId memberId : String)
    (newRole : WorkspaceRole) : Except ApiError OrgDB :=
  match requireRole db workspaceId adminUserId WorkspaceRole.ADMIN with
  | Except.error e => Except.error e
  | Except.ok _ =>
    match findMemberById db memberId with
    | none => Except.error ApiError.notFound
    | some member =>
      if !(member.workspaceId == workspaceId) then
        Except.error ApiError.notFound
      else if (member.role == WorkspaceRole.ADMIN) &&
          !(newRole == WorkspaceRole.ADMIN) &&
          decide (adminCount db workspaceId ≤ 1) then
        Except.error ApiError.badRequest
      else
        Except.ok { db with
          members := db.members.map
            (fun m => if m.id == memberId then { m with role := newRole } else m) }

/-- Shallow embedding of WorkspacesService.removeMember, including the
self-leave rule and the last-admin guard. -/
def removeMember (db : OrgDB) (workspaceId actingUserId memberId : String) :
    Except ApiError OrgDB :=
  match findMemberByKey db workspaceId actingUserId with
  | none => Except.error ApiError.forbidden
  | some actingMember =>
    match findMemberById db memberId with
    | none => Except.error ApiError.notFound
    | some targetMember =>
      if !(targetMember.workspaceId == workspaceId) then
        Except.error ApiError.notFound
      else
        let isSelfLeave := targetMember.userId == actingUserId
        let isAdmin := actingMember.role == WorkspaceRole.ADMIN
        if !isSelfLeave && !isAdmin then
          Except.error ApiError.forbidden
        else if (targetMember.role == WorkspaceRole.ADMIN) &&
            decide (adminCount db workspaceId ≤ 1) then
          Except.error ApiError.badRequest
        else
          Except.ok { db with
            members := db.members.filter (fun m => !(m.id == memberId)) }

/-- TeamsService.getTeamsForMember: the team ids of all teamMember rows
referencing the given membership. -/
def getTeamsForMember (db : OrgDB) (memberId : String) : List String :=
  (db.teamMembers.filter (fun tm => tm.memberId == memberId)).map
    (fun tm => tm.teamId)

/-- Entry shape returned by TeamsService.getAccessibleCollectionIds. -/
structure AccessibleCollection where
  collectionId : String
  accessLevel : CollectionAccessLevel
  canWrite : Bool
deriving DecidableEq, Repr

/-- A JS Map used as insertion-ordered association list: set on an
existing key replaces the value in place, otherwise appends. -/
def mapSet (m : List (String × CollectionAccessLevel)) (k : String)
    (v : CollectionAccessLevel) : List (String × CollectionAccessLevel) :=
  if m.any (fun p => p.1 == k) then
    m.map (fun p => if p.1 == k then (k, v) else p)
  else
    m ++ [(k, v)]

/-- Lookup in the insertion-ordered association list (JS Map.get). -/
def mapGet (m : List (String × CollectionAccessLevel)) (k : String) :
    Option CollectionAccessLevel :=
  (m.find? (fun p => p.1 == k)).map (fun p => p.2)

/-- The deduplicate-and-merge loop of getAccessibleCollectionIds: a grant
is skipped when the collection is already mapped to EDIT, otherwise it
overwrites the mapped level. -/
def mergeTeamCollections (tcs : List (String × CollectionAccessLevel)) :
    List (String × CollectionAccessLevel) :=
  tcs.foldl
    (fun acc tc =>
      match mapGet acc tc.1 with
      | some CollectionAccessLevel.EDIT => acc
      | _ => mapSet acc tc.1 tc.2)
    []

/-- Shallow embedding of TeamsService.getAccessibleCollectionIds. -/
def getAccessibleCollectionIds (db : OrgDB) (workspaceId userId : String) :
    List AccessibleCollection :=
  match findMemberByKey db workspaceId userId with
  | none => []
  | some membership =>
    let teamIds := getTeamsForMember db membership.id
    if teamIds.isEmpty then []
    else
      let teamCollections :=
        (db.teamCollections.filter (fun tc => teamIds.contains tc.teamId)).map
          (fun tc => (tc.collectionId, tc.accessLevel))
      (mergeTeamCollections teamCollections).map
        (fun p =>
          { collectionId := p.1, accessLevel := p.2,
            canWrite := p.2 == CollectionAccessLevel.EDIT })

/-- The standard base64 alphabet used by Buffer.toString with base64. -/
def b64Alphabet : List Char :=
  "ABCDEFGHIJKLMNOPQRSTUVWXYZabcdefghijklmnopqrstuvwxyz0123456789+/".toList

/-- The 6-bit groups of a byte list, grouped 3 bytes to 4 sextets, with
the partial final group of standard base64. -/
def sextets : List Nat → List Nat
  | b1 :: b2 :: b3 :: rest =>
    b1 / 4 :: ((b1 % 4) * 16 + b2 / 16) :: ((b2 % 16) * 4 + b3 / 64) ::
      b3 % 64 :: sextets rest
  | [b1, b2] => [b1 / 4, (b1 % 4) * 16 + b2 / 16, (b2 % 16) * 4]
  | [b1] => [b1 / 4, (b1 % 4) * 16]
  | [] => []

/-- The padding Buffer.toString appends for a final group of 1 or 2 bytes. -/
def b64Pad (n : Nat) : List Char :=
  match n % 3 with
  | 1 => ['=', '=']
  | 2 => ['=']
  | _ => []

/-- Buffer.toString with base64: alphabet characters for the sextets plus
padding. -/
def base64Encode (bs : List Nat) : List Char :=
  (sextets bs).map (fun v => b64Alphabet.getD v '?') ++ b64Pad bs.length

/-- Reassemble bytes from sextets, 4 sextets to 3 bytes, with the partial
final group. -/
def unsextets : List Nat → List Nat
  | s1 :: s2 :: s3 :: s4 :: rest =>
    (s1 * 4 + s2 / 16) :: ((s2 % 16) * 16 + s3 / 4) :: ((s3 % 4) * 64 + s4) ::
      unsextets rest
  | [s1, s2] => [s1 * 4 + s2 / 16]
  | [s1, s2, s3] => [s1 * 4 + s2 / 16, (s2 % 16) * 16 + s3 / 4]
  | _ => []

/-- Buffer.from with base64: drop the padding, map characters back to
sextets, reassemble bytes. -/
def base64Decode (cs : List Char) : List Nat :=
  unsextets ((cs.filter (fun c => !(c == '='))).map
    (fun c => b64Alphabet.indexOf c))

/-- The character substitution of generateRoomKey: the two replace calls
turning the standard base64 alphabet into the URL-safe one. -/
def b64UrlChar (c : Char) : Char :=
  if c == '+' then '-' else if c == '/' then '_' else c

/-- Shallow embedding of WorkspaceScenesController.generateRoomKey as a
function of the 16 random bytes: base64, URL-safe substitution, padding
stripped. -/
def generateRoomKey (keyBytes : List Nat) : String :=
  String.mk (((base64Encode keyBytes).map b64UrlChar).filter
    (fun c => !(c == '=')))

/-- The unpadded URL-safe base64 alphabet. -/
def base64UrlAlphabet : List Char :=
  "ABCDEFGHIJKLMNOPQRSTUVWXYZabcdefghijklmnopqrstuvwxyz0123456789-_".toList

/-- The room-key shape the specification requires: a 22-character string
over the base64url alphabet with no padding or standard-alphabet
characters. -/
def isBase64UrlKey (s : String) : Prop :=
  s.length = 22 ∧
    (∀ c ∈ s.data, c ∈ base64UrlAlphabet) ∧
    ∀ c ∈ s.data, c ≠ '=' ∧ c ≠ '+' ∧ c ≠ '/'

instance (s : String) : Decidable (isBase64UrlKey s) := by
  unfold isBase64UrlKey
  infer_instance

/-- The alphabet passed to customAlphabet by the controllers. -/
def lowerAlnum : List Char := "0123456789abcdefghijklmnopqrstuvwxyz".toList

/-- Modelled from the spec: the nanoid customAlphabet generator (external
library code), abstracted as a string of the given size whose characters
are drawn from the alphabet by an arbitrary choice function. -/
def nanoidGen (alphabet : List Char) (size : Nat) (pick : Nat → Nat) : String :=
  String.mk ((List.range size).map
    (fun i => alphabet.getD (pick i % alphabet.length) '0'))

/-- The room key generated by the startCollaboration handler of
workspace-scenes.controller.ts for an unprovisioned scene: nanoid40 over
the lowercase alphanumeric alphabet. -/
def nanoid40RoomKey (pick : Nat → Nat) : String :=
  nanoidGen lowerAlnum 40 pick

/-- The process environment slice read by getRoomKeySecret. -/
structure Env where
  roomKeySecret : Option String
  jwtSecret : Option String

/-- The JS expression a or-else b on environment strings: an unset or
empty string is falsy. -/
def jsOrString : Option String → Option String → Option String
  | some s, b => if s == "" then b else some s
  | none, b => b

/-- Modelled from the spec: createHash sha256 of the secret (external
library code), abstracted as an executable 32-byte digest of the secret
string.  Only its type and determinism matter to the claims. -/
def sha256Model (secret : String) : List Nat :=
  (List.range 32).map
    (fun i => secret.data.foldl (fun a c => (a * 31 + c.toNat) % 256) (i * 37 % 256))

/-- Shallow embedding of getRoomKeySecret: resolve ROOM_KEY_SECRET or
JWT_SECRET, throw Misconfigured when both are falsy, hash the secret. -/
def getRoomKeySecret (env : Env) : Except ApiError (List Nat) :=
  match jsOrString env.roomKeySecret env.jwtSecret with
  | none => Except.error ApiError.internal
  | some s =>
    if s == "" then Except.error ApiError.internal
    else Except.ok (sha256Model s)

/-- Modelled from the spec: the AES-256-GCM keystream byte at an index
(external cipher internals), abstracted as an executable byte-valued
function of key, nonce and index. -/
def ks (key nonce : List Nat) (i : Nat) : Nat :=
  (key.foldl (fun a b => (a * 131 + b) % 256) 7 +
    nonce.foldl (fun a b => (a * 131 + b) % 256) 11 + i * 41) % 256

/-- Counter-mode XOR of a byte list against the keystream, starting at
the given index. -/
def ctrStream (key nonce : List Nat) : Nat → List Nat → List Nat
  | _, [] => []
  | i, b :: rest => (b ^^^ ks key nonce i) :: ctrStream key nonce (i + 1) rest

/-- Modelled from the spec: AES-256-GCM encryption and decryption of a
byte sequence (cipher.update plus cipher.final), as keystream XOR; the
same function inverts itself. -/
def ctrCrypt (key nonce bs : List Nat) : List Nat :=
  ctrStream key nonce 0 bs

/-- Modelled from the spec: the 128-bit GCM authentication tag (external
cipher internals), abstracted as an executable 16-byte function of key,
nonce and ciphertext. -/
def gcmTag (key nonce ct : List Nat) : List Nat :=
  (List.range 16).map
    (fun i => ct.foldl (fun a b => (a * 131 + b) % 256) (ks key nonce (4096 + i)))

/-- Shallow embedding of WorkspaceScenesController.encryptRoomKey with
the fresh 12-byte nonce passed explicitly: encrypt the utf8 bytes of the
key, compute the tag, store base64 of nonce, tag, ciphertext. -/
def encryptRoomKey (env : Env) (iv : List Nat) (roomKey : String) :
    Except ApiError String :=
  match getRoomKeySecret env with
  | Except.error e => Except.error e
  | Except.ok key =>
    let encrypted := ctrCrypt key iv (roomKey.data.map Char.toNat)
    let authTag := gcmTag key iv encrypted
    Except.ok (String.mk (base64Encode (iv ++ authTag ++ encrypted)))

/-- Shallow embedding of WorkspaceScenesController.decryptRoomKey: decode
the base64 blob, slice it at offsets 12 and 28, verify the tag, decrypt;
a tag mismatch is an IntegrityFailure and yields no plaintext. -/
def decryptRoomKey (env : Env) (encrypted : String) : Except ApiError String :=
  match getRoomKeySecret env with
  | Except.error e => Except.error e
  | Except.ok key =>
    let buffer := base64Decode encrypted.data
    let iv := buffer.take 12
    let authTag := (buffer.drop 12).take 16
    let ciphertext := buffer.drop 28
    if gcmTag key iv ciphertext == authTag then
      Except.ok (String.mk ((ctrCrypt key iv ciphertext).map Char.ofNat))
    else
      Except.error ApiError.integrityFailure

/-- prisma.scene.update writing the room credentials of one scene. -/
def updateSceneRoom (db : DB) (sceneId roomId blob : String) : DB :=
  { db with
    scenes := db.scenes.map
      (fun s =>
        if s.id == sceneId then
          { s with roomId := some roomId, roomKeyEncrypted := some blob }
        else s) }

/-- Shallow embedding of WorkspaceScenesController.startCollaboration
(the registered controller): check canCollaborate, then either decrypt
the persisted key or provision fresh credentials, with the fresh room id,
key and nonce of the random generators passed explicitly. -/
def startCollaboration (env : Env) (db : DB) (id userId : String)
    (freshRoomId freshKey : String) (freshNonce : List Nat) :
    Except ApiError ((String × String) × DB) :=
  match findScene db id with
  | none => Except.error ApiError.notFound
  | some scene =>
    let access := checkAccess db id userId
    if !access.canCollaborate then Except.error ApiError.forbidden
    else
      match scene.roomId, scene.roomKeyEncrypted with
      | some roomId, some stored =>
        match decryptRoomKey env stored with
        | Except.error e => Except.error e
        | Except.ok roomKey => Except.ok ((roomId, roomKey), db)
      | r, _ =>
        let roomId := r.getD freshRoomId
        match encryptRoomKey env freshNonce freshKey with
        | Except.error e => Except.error e
        | Except.ok encrypted =>
          Except.ok ((roomId, freshKey), updateSceneRoom db id roomId encrypted)

/-- Shallow embedding of WorkspaceScenesController.getCollaborationInfo:
any viewer learns the room id, only a collaborator gets the decrypted
key. -/
def getCollaborationInfo (env : Env) (db : DB) (id userId : String) :
    Except ApiError (Option (String × Option String)) :=
  match findScene db id with
  | none => Except.error ApiError.notFound
  | some scene =>
    let access := checkAccess db id userId
    if !access.canView then Except.error ApiError.forbidden
    else
      match scene.roomId, scene.roomKeyEncrypted with
      | some roomId, some stored =>
        match decryptRoomKey env stored with
        | Except.error e => Except.error e
        | Except.ok roomKey =>
          Except.ok (some (roomId,
            if access.canCollaborate then some roomKey else none))
      | _, _ => Except.ok none

def exC1Collection : Collection where
  id := "c1"
  userId := "u1"
  isPrivate := true
  workspace := { id := "w1", type := WorkspaceType.SHARED }
  teamCollections := []

def exC1Scene : Scene where
  id := "s1"
  userId := "u2"
  collection := some exC1Collection
  collaborationEnabled := true
  roomId := none
  roomKeyEncrypted := none

def exC1Member : WorkspaceMember where
  workspaceId := "w1"
  userId := "u1"
  role := WorkspaceRole.VIEWER
  teamMemberships := []

def exC1DB : DB where
  scenes := [exC1Scene]
  members := [exC1Member]

/-- C1 counterexample: in a SHARED workspace, for a scene with
collaborationEnabled in a private collection owned by the caller whose
workspace role is VIEWER, checkAccess returns canCollaborate true with
canEdit false, refuting the claimed implication exactly in the case the
claim singles out. -/
theorem c1_counterexample :
    (checkAccess exC1DB "s1" "u1").canCollaborate = true ∧
      (checkAccess exC1DB "s1" "u1").canEdit = false := by
  decide

/-- C1 (amended): for every store, scene and user, the checkAccess
result satisfies canCollaborate implies canEdit, except in the one case
the counterexample forces: the scene lies in a private collection owned
by the caller, and the caller's workspace role is VIEWER (there
canCollaborate equals collaborationEnabled while canEdit is false). -/
theorem c1_collaborate_implies_edit_outside_private_owner_viewer
    (db : DB) (sceneId userId : String) (r : SceneAccessResult)
    (hr : checkAccess db sceneId userId = r) (h : r.canCollaborate = true) :
    r.canEdit = true ∨
      ∃ scene collection membership,
        findScene db sceneId = some scene ∧
        scene.collection = some collection ∧
        findMember db collection.workspace.id userId = some membership ∧
        collection.isPrivate = true ∧
        collection.userId = userId ∧
        membership.role = WorkspaceRole.VIEWER := by
  unfold checkAccess at hr
  rcases hs : findScene db sceneId with _ | scene
  · simp only [hs] at hr; subst hr; simp [allFalse] at h
  · simp only [hs] at hr
    rcases hc : scene.collection with _ | collection
    · simp only [hc] at hr; subst hr; simp at h
    · simp only [hc] at hr
      rcases hm : findMember db collection.workspace.id userId with _ | membership
      · simp only [hm] at hr; subst hr; simp [allFalse] at h
      · simp only [hm] at hr
        by_cases hpers : collection.workspace.type = WorkspaceType.PERSONAL
        · simp only [hpers, beq_self_eq_true, if_true] at hr
          subst hr; simp at h
        · simp only [hpers, beq_iff_eq, if_false, ite_false, if_neg] at hr
          by_cases hadmin : membership.role = WorkspaceRole.ADMIN
          · simp only [hadmin, beq_self_eq_true, if_true] at hr
            subst hr; left; rfl
          · simp only [beq_iff_eq, hadmin, if_neg, ite_false, if_false] at hr
            by_cases hpriv : collection.isPrivate = true
            · simp only [hpriv, if_true] at hr
              subst hr
              simp only [SceneAccessResult.canCollaborate, Bool.and_eq_true,
                beq_iff_eq] at h
              by_cases hv : membership.role = WorkspaceRole.VIEWER
              · exact Or.inr ⟨scene, collection, membership, rfl, hc, hm, hpriv,
                  h.1, hv⟩
              · left
                simp only [SceneAccessResult.canEdit, Bool.and_eq_true,
                  beq_iff_eq, Bool.not_eq_eq_eq_not, Bool.not_true,
                  beq_eq_false_iff_ne]
                exact ⟨h.1, by simpa using hv⟩
            · simp only [hpriv, if_false, ite_false, if_neg,
                Bool.not_eq_true] at hr
              rcases hfind : collection.teamCollections.find?
                  (fun tc => membership.teamMemberships.contains tc.teamId) with
                _ | teamAccess
              · simp only [hfind] at hr; subst hr; simp [allFalse] at h
              · simp only [hfind] at hr
                subst hr
                simp only [SceneAccessResult.canCollaborate,
                  Bool.and_eq_true] at h
                left
                simp only [SceneAccessResult.canEdit, Bool.and_eq_true]
                exact h.2

/-- Witness for the amended C1 theorem at the concrete store of the
counterexample, where the private-owner-viewer disjunct is the one that
holds. -/
theorem c1_witness :
    (checkAccess exC1DB "s1" "u1").canEdit = true ∨
      ∃ scene collection membership,
        findScene exC1DB "s1" = some scene ∧
        scene.collection = some collection ∧
        findMember exC1DB collection.workspace.id "u1" = some membership ∧
        collection.isPrivate = true ∧
        collection.userId = "u1" ∧
        membership.role = WorkspaceRole.VIEWER :=
  c1_collaborate_implies_edit_outside_private_owner_viewer exC1DB "s1" "u1"
    (checkAccess exC1DB "s1" "u1") rfl (by decide)

/-- C5: for every scene whose collection lies in a PERSONAL workspace,
checkAccess returns canCollaborate false for every user, including the
owner, regardless of collaborationEnabled and of any membership role. -/
theorem c5_personal_workspace_never_collaborates
    (db : DB) (sceneId userId : String) (scene : Scene) (collection : Collection)
    (hs : findScene db sceneId = some scene)
    (hc : scene.collection = some collection)
    (hw : collection.workspace.type = WorkspaceType.PERSONAL) :
    (checkAccess db sceneId userId).canCollaborate = false := by
  unfold checkAccess
  simp only [hs, hc]
  rcases hm : findMember db collection.workspace.id userId with _ | membership
  · simp [allFalse]
  · simp [hw]

def exC5Collection : Collection where
  id := "c5"
  userId := "u5"
  isPrivate := false
  workspace := { id := "w5", type := WorkspaceType.PERSONAL }
  teamCollections := []

def exC5Scene : Scene where
  id := "s5"
  userId := "u5"
  collection := some exC5Collection
  collaborationEnabled := true
  roomId := none
  roomKeyEncrypted := none

def exC5Member : WorkspaceMember where
  workspaceId := "w5"
  userId := "u5"
  role := WorkspaceRole.ADMIN
  teamMemberships := []

def exC5DB : DB where
  scenes := [exC5Scene]
  members := [exC5Member]

/-- Witness for C5 at a concrete PERSONAL workspace whose only member
is the scene owner with role ADMIN and collaborationEnabled true. -/
theorem c5_witness :
    (checkAccess exC5DB "s5" "u5").canCollaborate = false :=
  c5_personal_workspace_never_collaborates exC5DB "s5" "u5" exC5Scene
    exC5Collection (by decide) (by decide) (by decide)

/-- C6: checkAccess is a total function of the store (it never throws),
and it returns the all-false verdict both when no scene with the id
exists and when the scene's collection resolves to a workspace the
caller has no membership in. -/
theorem c6_missing_scene_or_membership_all_false
    (db : DB) (sceneId userId : String) :
    (findScene db sceneId = none → checkAccess db sceneId userId = allFalse) ∧
      ∀ scene collection,
        findScene db sceneId = some scene →
        scene.collection = some collection →
        findMember db collection.workspace.id userId = none →
        checkAccess db sceneId userId = allFalse := by
  constructor
  · intro hs
    unfold checkAccess
    simp [hs]
  · intro scene collection hs hc hm
    unfold checkAccess
    simp [hs, hc, hm]

def emptyDB : DB where
  scenes := []
  members := []

/-- Witness for C6: at the empty store the scene is missing, and at the
C1 store the user u9 has no membership in workspace w1. -/
theorem c6_witness :
    checkAccess emptyDB "s1" "u1" = allFalse ∧
      checkAccess exC1DB "s1" "u9" = allFalse :=
  ⟨(c6_missing_scene_or_membership_all_false emptyDB "s1" "u1").1 rfl,
   (c6_missing_scene_or_membership_all_false exC1DB "s1" "u9").2 exC1Scene
     exC1Collection (by decide) (by decide) (by decide)⟩

def exC2Collection : Collection where
  id := "c2"
  userId := "u9"
  isPrivate := false
  workspace := { id := "w1", type := WorkspaceType.SHARED }
  teamCollections :=
    [{ teamId := "t1", accessLevel := CollectionAccessLevel.VIEW },
     { teamId := "t2", accessLevel := CollectionAccessLevel.EDIT }]

def exC2Scene : Scene where
  id := "s1"
  userId := "u9"
  collection := some exC2Collection
  collaborationEnabled := true
  roomId := none
  roomKeyEncrypted := none

def exC2Member : WorkspaceMember where
  workspaceId := "w1"
  userId := "u1"
  role := WorkspaceRole.MEMBER
  teamMemberships := ["t1", "t2"]

def exC2DB : DB where
  scenes := [exC2Scene]
  members := [exC2Member]

/-- C2 counterexample: the caller is a MEMBER of a SHARED workspace,
belongs to team t2 which holds an EDIT grant on the (non-private)
collection, yet checkAccess returns canEdit false, because the first
grant in the collection's team-grant list that matches one of the
caller's teams is the VIEW grant of team t1 — checkAccess does not merge
grant levels. -/
theorem c2_counterexample :
    ("t2" ∈ exC2Member.teamMemberships ∧
      { teamId := "t2", accessLevel := CollectionAccessLevel.EDIT } ∈
        exC2Collection.teamCollections ∧
      exC2Collection.isPrivate = false ∧
      exC2Collection.workspace.type = WorkspaceType.SHARED ∧
      exC2Member.role = WorkspaceRole.MEMBER ∧
      exC2Scene.collaborationEnabled = true) ∧
    checkAccess exC2DB "s1" "u1" =
      { canView := true, canEdit := false, canCollaborate := false } := by
  decide

/-- C2 (amended): in the team branch the grant that decides access is
the FIRST entry of the collection's teamCollections list matching one of
the caller's teams, not a merged level; when that first matching grant is
EDIT and the caller's role is neither ADMIN nor VIEWER, checkAccess
returns canView true, canEdit true and canCollaborate equal to the
scene's collaborationEnabled flag. -/
theorem c2_team_branch_first_matching_grant_edit
    (db : DB) (sceneId userId : String) (scene : Scene) (collection : Collection)
    (membership : WorkspaceMember) (teamAccess : TeamCollection)
    (hs : findScene db sceneId = some scene)
    (hc : scene.collection = some collection)
    (hm : findMember db collection.workspace.id userId = some membership)
    (hw : collection.workspace.type = WorkspaceType.SHARED)
    (hadmin : membership.role ≠ WorkspaceRole.ADMIN)
    (hv : membership.role ≠ WorkspaceRole.VIEWER)
    (hpriv : collection.isPrivate = false)
    (hfind : collection.teamCollections.find?
        (fun tc => membership.teamMemberships.contains tc.teamId) =
      some teamAccess)
    (hlev : teamAccess.accessLevel = CollectionAccessLevel.EDIT) :
    checkAccess db sceneId userId =
      { canView := true, canEdit := true,
        canCollaborate := scene.collaborationEnabled } := by
  unfold checkAccess
  simp only [hs, hc, hm, hpriv, hfind]
  simp [hw, hadmin, hv, hlev]

def exC2bCollection : Collection where
  id := "c2"
  userId := "u9"
  isPrivate := false
  workspace := { id := "w1", type := WorkspaceType.SHARED }
  teamCollections :=
    [{ teamId := "t2", accessLevel := CollectionAccessLevel.EDIT },
     { teamId := "t1", accessLevel := CollectionAccessLevel.VIEW }]

def exC2bScene : Scene where
  id := "s1"
  userId := "u9"
  collection := some exC2bCollection
  collaborationEnabled := true
  roomId := none
  roomKeyEncrypted := none

def exC2bDB : DB where
  scenes := [exC2bScene]
  members := [exC2Member]

/-- Witness for the amended C2 theorem: same store as the
counterexample but with the EDIT grant listed first, where the claimed
verdict does come out. -/
theorem c2_witness :
    checkAccess exC2bDB "s1" "u1" =
      { canView := true, canEdit := true, canCollaborate := true } :=
  c2_team_branch_first_matching_grant_edit exC2bDB "s1" "u1" exC2bScene
    exC2bCollection exC2Member
    { teamId := "t2", accessLevel := CollectionAccessLevel.EDIT }
    (by decide) (by decide) (by decide) (by decide) (by decide) (by decide)
    (by decide) (by decide) (by decide)

/-- C7: when the team-collection rows visible to a member reduce to two
grants on the same collection with levels VIEW and EDIT in either order,
getAccessibleCollectionIds returns exactly one entry for that collection,
with accessLevel EDIT and canWrite true — the merge loop lets EDIT
dominate VIEW irrespective of processing order. -/
theorem c7_merge_max_edit_dominates
    (db : OrgDB) (workspaceId userId c : String) (membership : WMember)
    (l1 l2 : CollectionAccessLevel)
    (hm : findMemberByKey db workspaceId userId = some membership)
    (hg : (db.teamCollections.filter
        (fun tc => (getTeamsForMember db membership.id).contains tc.teamId)).map
        (fun tc => (tc.collectionId, tc.accessLevel)) = [(c, l1), (c, l2)])
    (hlev : (l1 = CollectionAccessLevel.VIEW ∧ l2 = CollectionAccessLevel.EDIT) ∨
      (l1 = CollectionAccessLevel.EDIT ∧ l2 = CollectionAccessLevel.VIEW)) :
    getAccessibleCollectionIds db workspaceId userId =
      [{ collectionId := c, accessLevel := CollectionAccessLevel.EDIT,
         canWrite := true }] := by
  have hne : (getTeamsForMember db membership.id).isEmpty = false := by
    rcases hemp : getTeamsForMember db membership.id with _ | ⟨t, ts⟩
    · rw [hemp] at hg
      simp at hg
    · rfl
  unfold getAccessibleCollectionIds
  simp only [hm, hne, Bool.false_eq_true, if_false, hg]
  rcases hlev with ⟨h1, h2⟩ | ⟨h1, h2⟩ <;> subst h1 <;> subst h2 <;>
    simp [mergeTeamCollections, mapGet, mapSet]

def exC7Member : WMember where
  id := "m1"
  workspaceId := "w1"
  userId := "u1"
  role := WorkspaceRole.MEMBER

def exC7DB : OrgDB where
  members := [exC7Member]
  teamMembers := [{ teamId := "t1", memberId := "m1" },
    { teamId := "t2", memberId := "m1" }]
  teamCollections :=
    [{ teamId := "t1", collectionId := "c1",
       accessLevel := CollectionAccessLevel.VIEW },
     { teamId := "t2", collectionId := "c1",
       accessLevel := CollectionAccessLevel.EDIT }]

/-- Witness for C7 at a concrete store where the member's two teams
hold a VIEW grant and an EDIT grant on the same collection. -/
theorem c7_witness :
    getAccessibleCollectionIds exC7DB "w1" "u1" =
      [{ collectionId := "c1", accessLevel := CollectionAccessLevel.EDIT,
         canWrite := true }] :=
  c7_merge_max_edit_dominates exC7DB "w1" "u1" "c1" exC7Member
    CollectionAccessLevel.VIEW CollectionAccessLevel.EDIT (by decide) (by decide)
    (Or.inl ⟨rfl, rfl⟩)

/-- C10: the last-admin guards.  When the targeted member is an ADMIN
of the workspace and the workspace's admin count is 1, updateMemberRole
refuses (BadRequest) any demotion away from ADMIN, and removeMember
refuses (BadRequest) the deletion; the error results carry no store, so
state is unchanged by construction. -/
theorem c10_last_admin_guards
    (db : OrgDB) (workspaceId actingUserId memberId : String) (target : WMember)
    (ht : findMemberById db memberId = some target)
    (hw : target.workspaceId = workspaceId)
    (hrole : target.role = WorkspaceRole.ADMIN)
    (hcount : adminCount db workspaceId = 1) :
    (∀ newRole acting,
      requireRole db workspaceId actingUserId WorkspaceRole.ADMIN =
        Except.ok acting →
      newRole ≠ WorkspaceRole.ADMIN →
      updateMemberRole db workspaceId actingUserId memberId newRole =
        Except.error ApiError.badRequest) ∧
    ∀ acting,
      findMemberByKey db workspaceId actingUserId = some acting →
      (target.userId = actingUserId ∨ acting.role = WorkspaceRole.ADMIN) →
      removeMember db workspaceId actingUserId memberId =
        Except.error ApiError.badRequest := by
  constructor
  · intro newRole acting hreq hnew
    unfold updateMemberRole
    simp [hreq, ht, hw, hrole, hnew, hcount]
  · intro acting hact hor
    unfold removeMember
    rcases hor with hself | hadmin
    · simp [hact, ht, hw, hrole, hcount, hself]
    · simp [hact, ht, hw, hrole, hcount, hadmin]

def exC10Admin : WMember where
  id := "m1"
  workspaceId := "w1"
  userId := "u1"
  role := WorkspaceRole.ADMIN

def exC10DB : OrgDB where
  members := [exC10Admin]
  teamMembers := []
  teamCollections := []

/-- Witness for C10 at a workspace whose sole member is its only
ADMIN: both the self-demotion and the self-removal are refused. -/
theorem c10_witness :
    updateMemberRole exC10DB "w1" "u1" "m1" WorkspaceRole.MEMBER =
      Except.error ApiError.badRequest ∧
    removeMember exC10DB "w1" "u1" "m1" = Except.error ApiError.badRequest :=
  ⟨(c10_last_admin_guards exC10DB "w1" "u1" "m1" exC10Admin (by decide)
      (by decide) (by decide) (by decide)).1 WorkspaceRole.MEMBER exC10Admin
      rfl (by decide),
   (c10_last_admin_guards exC10DB "w1" "u1" "m1" exC10Admin (by decide)
      (by decide) (by decide) (by decide)).2 exC10Admin (by decide)
      (Or.inl rfl)⟩

theorem sextets_lt : ∀ bs : List Nat, (∀ b ∈ bs, b < 256) →
    ∀ v ∈ sextets bs, v < 64
  | [], _, v, hv => by simp [sextets] at hv
  | [b1], h, v, hv => by
    have h1 := h b1 (by simp)
    simp [sextets] at hv
    rcases hv with hv | hv <;> omega
  | [b1, b2], h, v, hv => by
    have h1 := h b1 (by simp)
    have h2 := h b2 (by simp)
    simp [sextets] at hv
    rcases hv with hv | hv | hv <;> omega
  | b1 :: b2 :: b3 :: rest, h, v, hv => by
    have h1 := h b1 (by simp)
    have h2 := h b2 (by simp)
    have h3 := h b3 (by simp)
    simp only [sextets, List.mem_cons] at hv
    rcases hv with hv | hv | hv | hv | hv
    · omega
    · omega
    · omega
    · omega
    · exact sextets_lt rest (fun b hb => h b (by simp [hb])) v hv

theorem sextets_length : ∀ bs : List Nat,
    (sextets bs).length = (4 * bs.length + 2) / 3
  | [] => by simp [sextets]
  | [b1] => by simp [sextets]
  | [b1, b2] => by simp [sextets]
  | b1 :: b2 :: b3 :: rest => by
    have ih := sextets_length rest
    simp only [sextets, List.length_cons]
    omega

theorem unsextets_sextets : ∀ bs : List Nat, (∀ b ∈ bs, b < 256) →
    unsextets (sextets bs) = bs
  | [], _ => by simp [sextets, unsextets]
  | [b1], h => by
    have h1 := h b1 (by simp)
    simp only [sextets, unsextets, List.cons.injEq, and_true]
    omega
  | [b1, b2], h => by
    have h1 := h b1 (by simp)
    have h2 := h b2 (by simp)
    simp only [sextets, unsextets, List.cons.injEq, and_true]
    omega
  | b1 :: b2 :: b3 :: rest, h => by
    have h1 := h b1 (by simp)
    have h2 := h b2 (by simp)
    have h3 := h b3 (by simp)
    have ih := unsextets_sextets rest (fun b hb => h b (by simp [hb]))
    simp only [sextets, unsextets, List.cons.injEq]
    refine ⟨by omega, by omega, by omega, ih⟩

theorem b64_index_getD :
    ∀ v < 64, b64Alphabet.indexOf (b64Alphabet.getD v '?') = v := by
  decide

theorem b64_getD_beq_pad :
    ∀ v < 64, (b64Alphabet.getD v '?' == '=') = false := by
  decide

theorem b64UrlChar_getD_props :
    ∀ v < 64, b64UrlChar (b64Alphabet.getD v '?') ∈ base64UrlAlphabet ∧
      b64UrlChar (b64Alphabet.getD v '?') ≠ '=' ∧
      b64UrlChar (b64Alphabet.getD v '?') ≠ '+' ∧
      b64UrlChar (b64Alphabet.getD v '?') ≠ '/' := by
  decide

theorem b64Pad_filter (n : Nat) :
    (b64Pad n).filter (fun c => !(c == '=')) = [] := by
  unfold b64Pad
  split <;> rfl

theorem b64Pad_map_url (n : Nat) :
    (b64Pad n).map b64UrlChar = b64Pad n := by
  unfold b64Pad
  split <;> rfl

theorem base64Decode_encode (bs : List Nat) (h : ∀ b ∈ bs, b < 256) :
    base64Decode (base64Encode bs) = bs := by
  unfold base64Decode base64Encode
  rw [List.filter_append, b64Pad_filter, List.append_nil]
  rw [List.filter_eq_self.mpr]
  · rw [List.map_map]
    have hmap : (sextets bs).map
        (fun v => b64Alphabet.indexOf (b64Alphabet.getD v '?')) = sextets bs := by
      have := List.map_congr_left (l := sextets bs)
        (f := fun v => b64Alphabet.indexOf (b64Alphabet.getD v '?')) (g := id)
        (fun v hv => b64_index_getD v (sextets_lt bs h v hv))
      simpa using this
    rw [show ((fun c => b64Alphabet.indexOf c) ∘ fun v => b64Alphabet.getD v '?') =
        fun v => b64Alphabet.indexOf (b64Alphabet.getD v '?') from rfl]
    rw [hmap]
    exact unsextets_sextets bs h
  · intro c hc
    rcases List.mem_map.mp hc with ⟨v, hv, rfl⟩
    have hb := b64_getD_beq_pad v (sextets_lt bs h v hv)
    simpa using hb

theorem generateRoomKey_data (bs : List Nat) (h : ∀ b ∈ bs, b < 256) :
    (generateRoomKey bs).data =
      (sextets bs).map (fun v => b64UrlChar (b64Alphabet.getD v '?')) := by
  show (((base64Encode bs).map b64UrlChar).filter (fun c => !(c == '='))) = _
  unfold base64Encode
  rw [List.map_append, b64Pad_map_url, List.filter_append, b64Pad_filter,
    List.append_nil, List.map_map]
  rw [show (b64UrlChar ∘ fun v => b64Alphabet.getD v '?') =
      (fun v => b64UrlChar (b64Alphabet.getD v '?')) from rfl]
  rw [List.filter_eq_self.mpr]
  intro c hc
  rcases List.mem_map.mp hc with ⟨v, hv, rfl⟩
  have hp := (b64UrlChar_getD_props v (sextets_lt bs h v hv)).2.1
  simpa using hp

/-- C3: every key produced by generateRoomKey from 16 bytes is a
22-character unpadded base64url string (no padding or standard-alphabet
characters) — but the roomKey the registered startCollaboration handler
generates for an unprovisioned scene is a 40-character nanoid over the
lowercase alphanumeric alphabet, which violates the claimed (and
documented) 22-character 128-bit shape. -/
theorem c3_room_key_shape :
    (∀ bs : List Nat, bs.length = 16 → (∀ b ∈ bs, b < 256) →
      isBase64UrlKey (generateRoomKey bs)) ∧
    ∀ pick : Nat → Nat, (nanoid40RoomKey pick).length = 40 ∧
      ¬ isBase64UrlKey (nanoid40RoomKey pick) := by
  constructor
  · intro bs hlen h
    have hdata := generateRoomKey_data bs h
    refine ⟨?_, ?_, ?_⟩
    · show (generateRoomKey bs).data.length = 22
      rw [hdata, List.length_map, sextets_length, hlen]
    · intro c hc
      rw [hdata] at hc
      rcases List.mem_map.mp hc with ⟨v, hv, rfl⟩
      exact (b64UrlChar_getD_props v (sextets_lt bs h v hv)).1
    · intro c hc
      rw [hdata] at hc
      rcases List.mem_map.mp hc with ⟨v, hv, rfl⟩
      exact (b64UrlChar_getD_props v (sextets_lt bs h v hv)).2
  · intro pick
    constructor
    · show (nanoid40RoomKey pick).data.length = 40
      simp [nanoid40RoomKey, nanoidGen]
    · intro hk
      have h22 : (nanoid40RoomKey pick).length = 22 := hk.1
      have h40 : (nanoid40RoomKey pick).data.length = 40 := by
        simp [nanoid40RoomKey, nanoidGen]
      exact absurd (h22.symm.trans (show (nanoid40RoomKey pick).length = 40 from h40))
        (by norm_num)

/-- Witness for C3 at the all-zero 16-byte input and the identity pick
function. -/
theorem c3_witness :
    isBase64UrlKey (generateRoomKey (List.replicate 16 0)) ∧
      ((nanoid40RoomKey (fun i => i)).length = 40 ∧
        ¬ isBase64UrlKey (nanoid40RoomKey (fun i => i))) :=
  ⟨c3_room_key_shape.1 (List.replicate 16 0) (by decide) (by decide),
   c3_room_key_shape.2 (fun i => i)⟩

theorem data_mk (l : List Char) : (String.mk l).data = l := rfl

theorem foldl_mod_lt (l : List Nat) : ∀ a : Nat, a < 256 →
    l.foldl (fun a b => (a * 131 + b) % 256) a < 256 := by
  induction l with
  | nil => intro a ha; simpa using ha
  | cons b rest ih =>
    intro a ha
    exact ih ((a * 131 + b) % 256) (Nat.mod_lt _ (by norm_num))

theorem ks_lt (key nonce : List Nat) (i : Nat) : ks key nonce i < 256 :=
  Nat.mod_lt _ (by norm_num)

theorem gcmTag_lt (key nonce ct : List Nat) :
    ∀ b ∈ gcmTag key nonce ct, b < 256 := by
  intro b hb
  rcases List.mem_map.mp hb with ⟨i, _, rfl⟩
  exact foldl_mod_lt ct _ (ks_lt key nonce (4096 + i))

theorem gcmTag_length (key nonce ct : List Nat) :
    (gcmTag key nonce ct).length = 16 := by
  simp [gcmTag]

theorem ctrStream_lt (key nonce : List Nat) : ∀ (i : Nat) (bs : List Nat),
    (∀ b ∈ bs, b < 256) → ∀ b ∈ ctrStream key nonce i bs, b < 256 := by
  intro i bs
  induction bs generalizing i with
  | nil => intro _ b hb; simp [ctrStream] at hb
  | cons x rest ih =>
    intro h b hb
    simp only [ctrStream, List.mem_cons] at hb
    rcases hb with hb | hb
    · subst hb
      have hx := h x (by simp)
      have hk := ks_lt key nonce i
      have h256 : (256 : Nat) = 2 ^ 8 := by norm_num
      rw [h256] at hx hk ⊢
      exact Nat.xor_lt_two_pow hx hk
    · exact ih (i + 1) (fun y hy => h y (by simp [hy])) b hb

theorem ctrStream_ctrStream (key nonce : List Nat) : ∀ (i : Nat) (bs : List Nat),
    ctrStream key nonce i (ctrStream key nonce i bs) = bs := by
  intro i bs
  induction bs generalizing i with
  | nil => rfl
  | cons x rest ih =>
    simp only [ctrStream, List.cons.injEq]
    exact ⟨Nat.xor_cancel_right _ _, ih (i + 1)⟩

theorem decrypt_encrypt_roundtrip (env : Env) (key iv : List Nat) (k : String)
    (blob : String)
    (hkey : getRoomKeySecret env = Except.ok key)
    (hiv : iv.length = 12) (hivb : ∀ b ∈ iv, b < 256)
    (hk : ∀ c ∈ k.data, c.toNat < 128)
    (henc : encryptRoomKey env iv k = Except.ok blob) :
    decryptRoomKey env blob = Except.ok k := by
  unfold encryptRoomKey at henc
  rw [hkey] at henc
  simp only [Except.ok.injEq] at henc
  subst henc
  unfold decryptRoomKey
  have hctlt : ∀ b ∈ ctrCrypt key iv (k.data.map Char.toNat), b < 256 := by
    apply ctrStream_lt
    intro b hb
    rcases List.mem_map.mp hb with ⟨c, hc, rfl⟩
    have := hk c hc
    omega
  have hall : ∀ b ∈ iv ++ gcmTag key iv (ctrCrypt key iv (k.data.map Char.toNat)) ++
      ctrCrypt key iv (k.data.map Char.toNat), b < 256 := by
    intro b hb
    simp only [List.mem_append] at hb
    rcases hb with (hb | hb) | hb
    · exact hivb b hb
    · exact gcmTag_lt _ _ _ b hb
    · exact hctlt b hb
  simp only [hkey, data_mk]
  rw [base64Decode_encode _ hall, List.append_assoc]
  rw [show (12 : Nat) = iv.length from hiv.symm, List.take_left, List.drop_left]
  rw [show (16 : Nat) =
      (gcmTag key iv (ctrCrypt key iv (k.data.map Char.toNat))).length from
    (gcmTag_length _ _ _).symm, List.take_left]
  have h28 : (iv ++ (gcmTag key iv (ctrCrypt key iv (k.data.map Char.toNat)) ++
      ctrCrypt key iv (k.data.map Char.toNat))).drop 28 =
      ctrCrypt key iv (k.data.map Char.toNat) := by
    have hd := List.drop_drop 16 12 (iv ++
      (gcmTag key iv (ctrCrypt key iv (k.data.map Char.toNat)) ++
        ctrCrypt key iv (k.data.map Char.toNat)))
    simp only [show (16 + 12 : Nat) = 28 from rfl] at hd
    rw [← hd]
    rw [show (12 : Nat) = iv.length from hiv.symm, List.drop_left]
    rw [show (16 : Nat) =
        (gcmTag key iv (ctrCrypt key iv (k.data.map Char.toNat))).length from
      (gcmTag_length _ _ _).symm, List.drop_left]
  rw [h28]
  rw [if_pos (by simp)]
  unfold ctrCrypt
  rw [ctrStream_ctrStream, List.map_map]
  have hmap : (k.data.map (Char.ofNat ∘ Char.toNat)) = k.data := by
    have := List.map_congr_left (l := k.data) (f := Char.ofNat ∘ Char.toNat)
      (g := id) (fun c _ => Char.ofNat_toNat c)
    simpa using this
  rw [hmap]

/-- C4: for every room-key string and every configured server secret,
encryption succeeds, the stored blob is base64 of the 12-byte nonce, the
16-byte authentication tag and the variable-length ciphertext in that
order, and decryptRoomKey — which slices the decoded blob at exactly
offsets 12 and 28 before verifying the tag — returns the original key. -/
theorem c4_room_key_roundtrip (env : Env) (key iv : List Nat) (k : String)
    (hkey : getRoomKeySecret env = Except.ok key)
    (hiv : iv.length = 12) (hivb : ∀ b ∈ iv, b < 256)
    (hk : ∀ c ∈ k.data, c.toNat < 128) :
    ∃ blob,
      encryptRoomKey env iv k = Except.ok blob ∧
      blob.data = base64Encode (iv ++
        gcmTag key iv (ctrCrypt key iv (k.data.map Char.toNat)) ++
        ctrCrypt key iv (k.data.map Char.toNat)) ∧
      decryptRoomKey env blob = Except.ok k := by
  refine ⟨String.mk (base64Encode (iv ++
    gcmTag key iv (ctrCrypt key iv (k.data.map Char.toNat)) ++
    ctrCrypt key iv (k.data.map Char.toNat))), ?_, rfl, ?_⟩
  · unfold encryptRoomKey
    rw [hkey]
  · exact decrypt_encrypt_roundtrip env key iv k _ hkey hiv hivb hk
      (by unfold encryptRoomKey; rw [hkey])

def envC4 : Env where
  roomKeySecret := some "room-secret"
  jwtSecret := none

/-- Witness for C4 with a concrete secret, the nonce 0..11 and a
22-character ASCII room key. -/
theorem c4_witness :
    ∃ blob,
      encryptRoomKey envC4 (List.range 12) "abcDEF123-_Zxywvutsrq0" =
        Except.ok blob ∧
      blob.data = base64Encode (List.range 12 ++
        gcmTag (sha256Model "room-secret") (List.range 12)
          (ctrCrypt (sha256Model "room-secret") (List.range 12)
            (("abcDEF123-_Zxywvutsrq0" : String).data.map Char.toNat)) ++
        ctrCrypt (sha256Model "room-secret") (List.range 12)
          (("abcDEF123-_Zxywvutsrq0" : String).data.map Char.toNat)) ∧
      decryptRoomKey envC4 blob = Except.ok "abcDEF123-_Zxywvutsrq0" :=
  c4_room_key_roundtrip envC4 (sha256Model "room-secret") (List.range 12)
    "abcDEF123-_Zxywvutsrq0" rfl (by decide) (by decide) (by decide)

/-- C9: for a provisioned scene (roomId and encrypted key present) and
any caller with canView, getCollaborationInfo returns the scene's roomId,
and it returns the decrypted plaintext room key exactly when the caller's
checkAccess verdict has canCollaborate, null otherwise. -/
theorem c9_collaboration_info (env : Env) (db : DB) (id uid : String)
    (scene : Scene) (rid blob k : String)
    (hs : findScene db id = some scene)
    (hrid : scene.roomId = some rid)
    (hblob : scene.roomKeyEncrypted = some blob)
    (hdec : decryptRoomKey env blob = Except.ok k)
    (hview : (checkAccess db id uid).canView = true) :
    getCollaborationInfo env db id uid =
      Except.ok (some (rid,
        if (checkAccess db id uid).canCollaborate then some k else none)) := by
  unfold getCollaborationInfo
  simp [hs, hview, hrid, hblob, hdec]

def exC9Blob : String :=
  "AAECAwQFBgcICQoLxcbHyMnKy8zNzs/Q0dLT1OnTuUdpE0+V49R9EQzksZltNRnhzdU="

def exC9Collection : Collection where
  id := "c9"
  userId := "u9"
  isPrivate := false
  workspace := { id := "w9", type := WorkspaceType.SHARED }
  teamCollections := []

def exC9Scene : Scene where
  id := "s9"
  userId := "u9"
  collection := some exC9Collection
  collaborationEnabled := true
  roomId := some "room9"
  roomKeyEncrypted := some exC9Blob

def exC9Member : WorkspaceMember where
  workspaceId := "w9"
  userId := "u9"
  role := WorkspaceRole.ADMIN
  teamMemberships := []

def exC9DB : DB where
  scenes := [exC9Scene]
  members := [exC9Member]

set_option maxRecDepth 100000 in
/-- Witness for C9 at a provisioned scene whose stored blob is a
concrete encryption of a 22-character key; the admin caller has
canCollaborate, so the decrypted key is returned. -/
theorem c9_witness :
    getCollaborationInfo envC4 exC9DB "s9" "u9" =
      Except.ok (some ("room9",
        if (checkAccess exC9DB "s9" "u9").canCollaborate then
          some "abcDEF123-_Zxywvutsrq0"
        else none)) :=
  c9_collaboration_info envC4 exC9DB "s9" "u9" exC9Scene "room9" exC9Blob
    "abcDEF123-_Zxywvutsrq0" (by decide) rfl rfl
    (decrypt_encrypt_roundtrip envC4 (sha256Model "room-secret") (List.range 12)
      "abcDEF123-_Zxywvutsrq0" exC9Blob rfl (by decide) (by decide) (by decide)
      rfl)
    (by decide)

/-- Looking a scene up after the room-credentials update returns the
stored row with only roomId and roomKeyEncrypted changed. -/
theorem findScene_updateSceneRoom (db : DB) (sid rid blob sid2 : String) :
    findScene (updateSceneRoom db sid rid blob) sid2 =
      (findScene db sid2).map
        (fun s =>
          if s.id == sid then
            { s with roomId := some rid, roomKeyEncrypted := some blob }
          else s) := by
  unfold findScene updateSceneRoom
  dsimp only
  induction db.scenes with
  | nil => rfl
  | cons s rest ih =>
    have hid : (if s.id == sid then
        { s with roomId := some rid, roomKeyEncrypted := some blob } else s).id
        = s.id := by
      by_cases h : (s.id == sid) = true <;> simp [h]
    by_cases h : (s.id == sid2) = true
    · rw [List.map_cons, List.find?_cons_of_pos _ (by rw [hid]; exact h),
        show List.find? (fun s => s.id == sid2) (s :: rest) = some s from
          List.find?_cons_of_pos _ h]
      rfl
    · rw [List.map_cons,
        List.find?_cons_of_neg _ (by rw [hid]; exact h),
        show List.find? (fun s => s.id == sid2) (s :: rest) =
            List.find? (fun s => s.id == sid2) rest from
          List.find?_cons_of_neg _ h,
        ih]

/-- Writing room credentials does not change any access verdict:
checkAccess reads no room field. -/
theorem checkAccess_updateSceneRoom (db : DB) (sid rid blob sid2 uid : String) :
    checkAccess (updateSceneRoom db sid rid blob) sid2 uid =
      checkAccess db sid2 uid := by
  unfold checkAccess
  have hm : findMember (updateSceneRoom db sid rid blob) = findMember db := rfl
  rw [findScene_updateSceneRoom, hm]
  rcases findScene db sid2 with _ | s
  · rfl
  · by_cases h : s.id = sid <;> simp [h]
/-- C8: startCollaboration is idempotent.  Whenever a first call by a
caller with canCollaborate succeeds with some (roomId, roomKey) and
store, a second call on the resulting store returns the identical
(roomId, roomKey) and leaves the store untouched: the second call
decrypts the persisted credentials instead of generating new ones. -/
theorem c8_start_collaboration_idempotent (env : Env) (db : DB)
    (id uid f1Room f1Key : String) (f1Nonce : List Nat)
    (f2Room f2Key : String) (f2Nonce : List Nat)
    (result : String × String) (db1 : DB)
    (hn : f1Nonce.length = 12) (hnb : ∀ b ∈ f1Nonce, b < 256)
    (hkc : ∀ c ∈ f1Key.data, c.toNat < 128)
    (h : startCollaboration env db id uid f1Room f1Key f1Nonce =
      Except.ok (result, db1)) :
    startCollaboration env db1 id uid f2Room f2Key f2Nonce =
      Except.ok (result, db1) := by
  unfold startCollaboration at h
  rcases hs : findScene db id with _ | scene
  · rw [hs] at h
    simp at h
  rw [hs] at h
  simp only at h
  rcases hcol : (checkAccess db id uid).canCollaborate with _ | _
  · rw [hcol] at h
    simp at h
  rw [hcol] at h
  simp only [Bool.not_true, Bool.false_eq_true, if_false, ite_false] at h
  have hs2 := hs
  unfold findScene at hs2
  have hpid : (scene.id == id) = true := by
    have := List.find?_some hs2
    simpa using this
  rcases hrid : scene.roomId with _ | rid <;>
    rcases hsk : scene.roomKeyEncrypted with _ | stored
  · -- roomId none, key none: fresh provisioning
    rw [hrid, hsk] at h
    simp only [Option.getD] at h
    rcases henc : encryptRoomKey env f1Nonce f1Key with e | enc
    · rw [henc] at h
      simp at h
    rw [henc] at h
    simp only [Except.ok.injEq, Prod.mk.injEq] at h
    obtain ⟨hres, hdb⟩ := h
    subst hdb
    subst hres
    have hkey : ∃ key, getRoomKeySecret env = Except.ok key := by
      unfold encryptRoomKey at henc
      rcases hsec : getRoomKeySecret env with e2 | key
      · rw [hsec] at henc; simp at henc
      · exact ⟨key, rfl⟩
    obtain ⟨key, hkey⟩ := hkey
    have hdec := decrypt_encrypt_roundtrip env key f1Nonce f1Key enc hkey hn hnb
      hkc henc
    have hfs : findScene (updateSceneRoom db id f1Room enc) id =
        some { scene with roomId := some f1Room, roomKeyEncrypted := some enc } := by
      rw [findScene_updateSceneRoom, hs]
      simp only [Option.map_some']
      rw [if_pos hpid]
    unfold startCollaboration
    simp only [hfs, checkAccess_updateSceneRoom, hcol, Bool.not_true,
      Bool.false_eq_true, if_false, ite_false, hdec]
  · -- roomId none, key some: fresh provisioning (key regenerated)
    rw [hrid, hsk] at h
    simp only [Option.getD] at h
    rcases henc : encryptRoomKey env f1Nonce f1Key with e | enc
    · rw [henc] at h
      simp at h
    rw [henc] at h
    simp only [Except.ok.injEq, Prod.mk.injEq] at h
    obtain ⟨hres, hdb⟩ := h
    subst hdb
    subst hres
    have hkey : ∃ key, getRoomKeySecret env = Except.ok key := by
      unfold encryptRoomKey at henc
      rcases hsec : getRoomKeySecret env with e2 | key
      · rw [hsec] at henc; simp at henc
      · exact ⟨key, rfl⟩
    obtain ⟨key, hkey⟩ := hkey
    have hdec := decrypt_encrypt_roundtrip env key f1Nonce f1Key enc hkey hn hnb
      hkc henc
    have hfs : findScene (updateSceneRoom db id f1Room enc) id =
        some { scene with roomId := some f1Room, roomKeyEncrypted := some enc } := by
      rw [findScene_updateSceneRoom, hs]
      simp only [Option.map_some']
      rw [if_pos hpid]
    unfold startCollaboration
    simp only [hfs, checkAccess_updateSceneRoom, hcol, Bool.not_true,
      Bool.false_eq_true, if_false, ite_false, hdec]
  · -- roomId some, key none: fresh key for existing room id
    rw [hrid, hsk] at h
    simp only [Option.getD] at h
    rcases henc : encryptRoomKey env f1Nonce f1Key with e | enc
    · rw [henc] at h
      simp at h
    rw [henc] at h
    simp only [Except.ok.injEq, Prod.mk.injEq] at h
    obtain ⟨hres, hdb⟩ := h
    subst hdb
    subst hres
    have hkey : ∃ key, getRoomKeySecret env = Except.ok key := by
      unfold encryptRoomKey at henc
      rcases hsec : getRoomKeySecret env with e2 | key
      · rw [hsec] at henc; simp at henc
      · exact ⟨key, rfl⟩
    obtain ⟨key, hkey⟩ := hkey
    have hdec := decrypt_encrypt_roundtrip env key f1Nonce f1Key enc hkey hn hnb
      hkc henc
    have hfs : findScene (updateSceneRoom db id rid enc) id =
        some { scene with roomId := some rid, roomKeyEncrypted := some enc } := by
      rw [findScene_updateSceneRoom, hs]
      simp only [Option.map_some']
      rw [if_pos hpid]
    unfold startCollaboration
    simp only [hfs, checkAccess_updateSceneRoom, hcol, Bool.not_true,
      Bool.false_eq_true, if_false, ite_false, hdec]
  · -- roomId some, key some: reuse persisted credentials
    rw [hrid, hsk] at h
    dsimp only at h
    rcases hdec : decryptRoomKey env stored with e | rk
    · rw [hdec] at h
      simp at h
    rw [hdec] at h
    simp only [Except.ok.injEq, Prod.mk.injEq] at h
    obtain ⟨hres, hdb⟩ := h
    subst hdb
    subst hres
    unfold startCollaboration
    simp only [hs, hcol, Bool.not_true, Bool.false_eq_true, if_false,
      ite_false, hrid, hsk, hdec]
def exC8Blob : String :=
  "AAECAwQFBgcICQoLxcbHyMnKy8zNzs/Q0dLT1OnTuUdpE0+V49R9EQzksZltNRnhzdU="

def exC8Collection : Collection where
  id := "c8"
  userId := "u8"
  isPrivate := false
  workspace := { id := "w8", type := WorkspaceType.SHARED }
  teamCollections := []

def exC8Scene : Scene where
  id := "s8"
  userId := "u8"
  collection := some exC8Collection
  collaborationEnabled := true
  roomId := none
  roomKeyEncrypted := none

def exC8Member : WorkspaceMember where
  workspaceId := "w8"
  userId := "u8"
  role := WorkspaceRole.ADMIN
  teamMemberships := []

def exC8DB : DB where
  scenes := [exC8Scene]
  members := [exC8Member]

set_option maxRecDepth 100000 in
/-- Witness for C8: the concrete second call after a first call that
provisioned the scene, returning the same room id and key. -/
theorem c8_witness :
    startCollaboration envC4 (updateSceneRoom exC8DB "s8" "room8" exC8Blob)
        "s8" "u8" "r2" "k2" [1, 2, 3] =
      Except.ok (("room8", "abcDEF123-_Zxywvutsrq0"),
        updateSceneRoom exC8DB "s8" "room8" exC8Blob) :=
  c8_start_collaboration_idempotent envC4 exC8DB "s8" "u8" "room8"
    "abcDEF123-_Zxywvutsrq0" (List.range 12) "r2" "k2" [1, 2, 3]
    ("room8", "abcDEF123-_Zxywvutsrq0")
    (updateSceneRoom exC8DB "s8" "room8" exC8Blob)
    (by decide) (by decide) (by decide) rfl

end AstraDraw
